import Mathlib

/-
Shallow embedding of the gnomAD validity-check engine
(src/gnomad/assessment/validity_checks.py) and theorems about it.

Hail tables are embedded as Lists of rows; a row's info struct is an
association list from field name to an optional integer value (None is
Hail missing, NA).  Hail boolean expressions are three-valued
(Option Bool), comparisons propagate missingness, and
hl.agg.count_where counts exactly the rows on which the predicate
evaluates to (some true).
-/

set_option maxRecDepth 4000

/-- Info struct of one table row: field name to optional value (NA = none). -/
abbrev InfoRow := List (String × Option Int)

/-- Field access t.info[f]; an absent field reads as missing here (the
theorems only ever read fields that are present). -/
def infoGet (r : InfoRow) (f : String) : Option Int :=
  (r.lookup f).join

/-- Lift a Boolean comparison to Hail three-valued semantics:
missing on either side propagates to a missing Boolean. -/
def hailLift2 (f : Int → Int → Bool) : Option Int → Option Int → Option Bool
  | some a, some b => some (f a b)
  | none, _ => none
  | some _, none => none

/-- Hail == on optional ints. -/
def hailEq : Option Int → Option Int → Option Bool :=
  hailLift2 (fun a b => decide (a = b))

/-- Hail != on optional ints. -/
def hailNe : Option Int → Option Int → Option Bool :=
  hailLift2 (fun a b => decide (a ≠ b))

/-- Hail < on optional ints. -/
def hailLt : Option Int → Option Int → Option Bool :=
  hailLift2 (fun a b => decide (a < b))

/-- Hail <= on optional ints. -/
def hailLe : Option Int → Option Int → Option Bool :=
  hailLift2 (fun a b => decide (a ≤ b))

/-- Hail > on optional ints. -/
def hailGt : Option Int → Option Int → Option Bool :=
  hailLift2 (fun a b => decide (b < a))

/-- hl.is_missing: total, never missing itself. -/
def hailIsMissing (o : Option Int) : Option Bool := some o.isNone

/-- hl.is_defined: total, never missing itself. -/
def hailIsDefined (o : Option Int) : Option Bool := some o.isSome

/-- hl.if_else with a three-valued condition: a missing condition gives a
missing result. -/
def hailIfElse : Option Bool → Option Bool → Option Bool → Option Bool
  | none, _, _ => none
  | some true, a, _ => a
  | some false, _, b => b

/-- Hail & (Kleene three-valued conjunction). -/
def hailAnd : Option Bool → Option Bool → Option Bool
  | some false, _ => some false
  | some true, some false => some false
  | some true, some true => some true
  | some true, none => none
  | none, some false => some false
  | none, some true => none
  | none, none => none

/-- ht.filter(cond): keep exactly the rows on which the three-valued
predicate evaluates to true (false and missing are both dropped). -/
def hailFilter {ρ : Type} (rows : List ρ) (p : ρ → Option Bool) : List ρ :=
  rows.filter (fun r => p r == some true)

/-- hl.agg.count_where over a table: the number of rows on which the
predicate evaluates to true. -/
def countWhere {ρ : Type} (p : ρ → Option Bool) (rows : List ρ) : Nat :=
  rows.countP (fun r => p r == some true)

/-- One field-check entry as assembled by the check-family builders: a
description, a row-level failure predicate (the agg_func of every entry
in these families is hl.agg.count_where), and the names of the display
fields shown on failure. -/
structure FieldCheck (ρ : Type) where
  desc : String
  expr : ρ → Option Bool
  display : List String

/-- One step of the single batched aggregation: update every per-check
counter from one row. -/
def batchedStep {ρ : Type} (preds : List (ρ → Option Bool)) (acc : List Nat) (r : ρ) :
    List Nat :=
  List.zipWith (fun p c => if p r == some true then c + 1 else c) preds acc

/-- The single aggregation pass of generic_field_check_loop: one fold over
the rows that advances all per-check failure counters simultaneously. -/
def batchedCounts {ρ : Type} (rows : List ρ) (preds : List (ρ → Option Bool)) :
    List Nat :=
  rows.foldl (batchedStep preds) (preds.map fun _ => 0)

/-- generic_field_check_loop: aggregate all failure counts in one batched
pass, yielding one (check description, failure count) pair per entry;
each pair is then handed to generic_field_check as its precomputed
n_fail. -/
def generic_field_check_loop {ρ : Type} (rows : List ρ) (entries : List (FieldCheck ρ)) :
    List (String × Nat) :=
  List.zip (entries.map (·.desc)) (batchedCounts rows (entries.map (·.expr)))

theorem zipWith_zipWith_same {α β : Type} (f g : α → β → β) :
    ∀ (ps : List α) (cs : List β),
      List.zipWith f ps (List.zipWith g ps cs) = List.zipWith (fun p c => f p (g p c)) ps cs := by
  intro ps
  induction ps with
  | nil => intro cs; simp
  | cons p ps ih =>
    intro cs
    cases cs with
    | nil => simp
    | cons c cs => simp [List.zipWith, ih]

theorem zipWith_keep_right {α : Type} :
    ∀ (ps : List α) (cs : List Nat), ps.length = cs.length →
      List.zipWith (fun _ c => c) ps cs = cs := by
  intro ps
  induction ps with
  | nil =>
    intro cs h
    cases cs with
    | nil => simp
    | cons c cs => simp at h
  | cons p ps ih =>
    intro cs h
    cases cs with
    | nil => simp at h
    | cons c cs =>
      simp only [List.zipWith_cons_cons, List.cons.injEq, true_and]
      exact ih cs (by simpa using h)

theorem zipWith_congr_fun {α β γ : Type} (f g : α → β → γ) (h : ∀ a b, f a b = g a b) :
    ∀ (ps : List α) (cs : List β), List.zipWith f ps cs = List.zipWith g ps cs := by
  intro ps
  induction ps with
  | nil => intro cs; simp
  | cons p ps ih =>
    intro cs
    cases cs with
    | nil => simp
    | cons c cs => simp only [List.zipWith_cons_cons, h, ih]

theorem batchedStep_length {ρ : Type} (preds : List (ρ → Option Bool))
    (acc : List Nat) (r : ρ) (h : acc.length = preds.length) :
    (batchedStep preds acc r).length = preds.length := by
  simp [batchedStep, h]

theorem batchedCounts_foldl {ρ : Type} (preds : List (ρ → Option Bool)) :
    ∀ (rows : List ρ) (acc : List Nat), acc.length = preds.length →
      rows.foldl (batchedStep preds) acc =
        List.zipWith (fun p c => c + countWhere p rows) preds acc := by
  intro rows
  induction rows with
  | nil =>
    intro acc h
    simp only [List.foldl_nil, countWhere, List.countP_nil, Nat.add_zero]
    exact (zipWith_keep_right preds acc h.symm).symm
  | cons r rs ih =>
    intro acc h
    have hstep : (batchedStep preds acc r).length = preds.length :=
      batchedStep_length preds acc r h
    rw [List.foldl_cons, ih _ hstep]
    simp only [batchedStep, zipWith_zipWith_same]
    apply zipWith_congr_fun
    intro p c
    simp only [countWhere, List.countP_cons]
    by_cases hpr : (p r == some true) = true
    · rw [if_pos hpr, if_pos hpr]; omega
    · rw [if_neg hpr, if_neg hpr]; omega

/-- The batched single-pass counts agree entry-by-entry with independent
count_where aggregations. -/
theorem batchedCounts_eq_countWhere {ρ : Type} (rows : List ρ)
    (preds : List (ρ → Option Bool)) :
    batchedCounts rows preds = preds.map (fun p => countWhere p rows) := by
  unfold batchedCounts
  rw [batchedCounts_foldl preds rows _ (by simp)]
  induction preds with
  | nil => simp
  | cons p ps ih =>
    simp only [List.map_cons, List.zipWith_cons_cons, Nat.zero_add, List.cons.injEq,
      true_and]
    exact ih

/-- An independent filter-and-count pass computes count_where. -/
theorem hailFilter_length_eq_countWhere {ρ : Type} (rows : List ρ) (p : ρ → Option Bool) :
    (hailFilter rows p).length = countWhere p rows := by
  simp [hailFilter, countWhere, List.countP_eq_length_filter]

/-- Shared form of the batching lemma: the loop output is exactly the map
of independent filter+count over the entries. -/
theorem generic_field_check_loop_eq {ρ : Type} (rows : List ρ)
    (entries : List (FieldCheck ρ)) :
    generic_field_check_loop rows entries =
      entries.map (fun e => (e.desc, (hailFilter rows e.expr).length)) := by
  unfold generic_field_check_loop
  rw [batchedCounts_eq_countWhere]
  induction entries with
  | nil => simp
  | cons e es ih =>
    simp only [List.map_cons, List.zip_cons_cons, ih, List.cons.injEq, and_true]
    rw [hailFilter_length_eq_countWhere]

/-- Report produced by one generic_field_check call: the pass/fail
classification, the log line, and the failure percentage when one is
logged. -/
structure GFCReport where
  passed : Bool
  message : String
  percent : Option ℚ
deriving DecidableEq

/-- Data-engine operations a check can issue (all of them reads). -/
inductive EngineOp where
  | filterCount
  | tableCount
  | showRows
deriving DecidableEq

/-- Full outcome of a generic_field_check call: the report (or the raised
error), the engine operations issued, in order, and the caller-visible
dataset after the call (the source only rebinds a local name, it never
writes through the handle). -/
structure GFCOutcome (ρ : Type) where
  res : Except String GFCReport
  ops : List EngineOp
  table : List ρ

/-- generic_field_check: raise when both n_fail and cond_expr are absent;
otherwise obtain the failure count (filtering only when it was not
precomputed), obtain the table count only when a percentage is requested
and none was precomputed, and classify: PASSED on a zero count, a
"Found N sites that fail" line otherwise, with the percentage
100 * n_fail / ht_count logged on the failure branch when requested. -/
def generic_field_check {ρ : Type} (ht : List ρ) (check_description : String)
    (display_fields : List String) (cond_expr : Option (ρ → Option Bool))
    (verbose : Bool) (show_percent_sites : Bool) (n_fail : Option Nat)
    (ht_count : Option Nat) : GFCOutcome ρ :=
  if n_fail.isNone && cond_expr.isNone then
    { res := Except.error "At least one of n_fail or cond_expr must be defined!"
      ops := []
      table := ht }
  else
    let nfOps : Nat × List EngineOp :=
      match n_fail, cond_expr with
      | none, some c => ((hailFilter ht c).length, [EngineOp.filterCount])
      | some n, _ => (n, [])
      | none, none => (0, [])
    let cntOps : Option Nat × List EngineOp :=
      if show_percent_sites && ht_count.isNone then (some ht.length, [EngineOp.tableCount])
      else (ht_count, [])
    let report : GFCReport :=
      if 0 < nfOps.1 then
        { passed := false
          message := "Found " ++ toString nfOps.1 ++ " sites that fail " ++
            check_description ++ " check"
          percent :=
            if show_percent_sites then
              some (100 * (nfOps.1 : ℚ) / ((cntOps.1.getD 0 : Nat) : ℚ))
            else none }
      else
        { passed := true
          message := "PASSED " ++ check_description ++ " check"
          percent := none }
    let showOps : List EngineOp :=
      if 0 < nfOps.1 then (if cond_expr.isSome then [EngineOp.showRows] else [])
      else (if verbose then [EngineOp.showRows] else [])
    { res := Except.ok report
      ops := nfOps.2 ++ cntOps.2 ++ showOps
      table := ht }

/-- C1: for every table and every list of field-check entries (each a
description, a three-valued row-level failure predicate, and a
count_where reduction), the per-check failure count computed by
generic_field_check_loop through its single batched aggregation pass
equals the count obtained by independently filtering the table with that
one predicate and counting the surviving rows; batching never changes
any reported count. -/
theorem claim_C1_batched_equals_unbatched {ρ : Type} (rows : List ρ)
    (entries : List (FieldCheck ρ)) :
    generic_field_check_loop rows entries =
      entries.map (fun e => (e.desc, (hailFilter rows e.expr).length)) :=
  generic_field_check_loop_eq rows entries

/-- Pass/fail classification carried by an outcome: some true for PASSED,
some false for the failure line, none when the call raised. -/
def gfcClassification {ρ : Type} (o : GFCOutcome ρ) : Option Bool :=
  match o.res with
  | Except.ok r => some r.passed
  | Except.error _ => none

/-- C3: generic_field_check raises the invalid-arguments ValueError exactly
when both the precomputed failure count n_fail and the failure predicate
cond_expr are absent; with at least one of them supplied the error is
impossible, and when the error is raised no dataset access and no report
output has happened (the operation log is empty and no report is
produced). -/
theorem claim_C3_value_error_iff_both_absent {ρ : Type} (ht : List ρ)
    (desc : String) (disp : List String) (cond : Option (ρ → Option Bool))
    (verbose sp : Bool) (nf cnt : Option Nat) :
    ((generic_field_check ht desc disp cond verbose sp nf cnt).res =
        Except.error "At least one of n_fail or cond_expr must be defined!" ↔
      nf = none ∧ cond = none) ∧
    (nf = none ∧ cond = none →
      (generic_field_check ht desc disp cond verbose sp nf cnt).ops = []) := by
  cases nf with
  | none =>
    cases cond with
    | none => simp [generic_field_check]
    | some c => simp [generic_field_check]
  | some n =>
    cases cond with
    | none => simp [generic_field_check]
    | some c => simp [generic_field_check]

/-- C3 witness: with both arguments absent the checked error is raised and
nothing was done first. -/
theorem claim_C3_value_error_witness :
    (generic_field_check ([] : List InfoRow) "AC-raw greater than 0" [] none false false
        none none).res =
      Except.error "At least one of n_fail or cond_expr must be defined!" ∧
    (generic_field_check ([] : List InfoRow) "AC-raw greater than 0" [] none false false
        none none).ops = [] := by
  have h := claim_C3_value_error_iff_both_absent ([] : List InfoRow)
    "AC-raw greater than 0" [] none false false none none
  exact ⟨h.1.mpr ⟨rfl, rfl⟩, h.2 ⟨rfl, rfl⟩⟩

/-- C9: with a precomputed failure count the classification of
generic_field_check is a pure function of that count: it reports PASSED
exactly when the count is 0 and the "Found N sites that fail" message
exactly when it is positive, the logged percentage equals
100 * n_fail / ht_count (with the row count taken from the table when no
count was precomputed), the dataset handle is returned unchanged, and a
second invocation with the same precomputed count yields the identical
classification even over a different table and predicate. -/
theorem claim_C9_classification_pure {ρ ρ2 : Type} (ht : List ρ) (ht2 : List ρ2)
    (desc : String) (disp : List String) (cond : Option (ρ → Option Bool))
    (cond2 : Option (ρ2 → Option Bool)) (verbose sp : Bool) (n : Nat)
    (cnt : Option Nat) :
    ∃ r : GFCReport,
      (generic_field_check ht desc disp cond verbose sp (some n) cnt).res =
          Except.ok r ∧
      (r.passed = true ↔ n = 0) ∧
      (0 < n →
        r.message = "Found " ++ toString n ++ " sites that fail " ++ desc ++ " check") ∧
      (n = 0 → r.message = "PASSED " ++ desc ++ " check") ∧
      (0 < n → sp = true →
        r.percent = some (100 * (n : ℚ) / ((cnt.getD ht.length : Nat) : ℚ))) ∧
      (generic_field_check ht desc disp cond verbose sp (some n) cnt).table = ht ∧
      gfcClassification (generic_field_check ht2 desc disp cond2 verbose sp (some n) cnt) =
        gfcClassification (generic_field_check ht desc disp cond verbose sp (some n) cnt) := by
  by_cases hn : 0 < n
  · have hne : n ≠ 0 := by omega
    cases cnt with
    | none =>
      cases sp with
      | false =>
        exact ⟨⟨false,
          "Found " ++ toString n ++ " sites that fail " ++ desc ++ " check", none⟩,
          by simp [generic_field_check, hn], by simp [hne], by simp, by simp [hne],
          by simp, by simp [generic_field_check],
          by simp [generic_field_check, gfcClassification, hn]⟩
      | true =>
        exact ⟨⟨false,
          "Found " ++ toString n ++ " sites that fail " ++ desc ++ " check",
          some (100 * (n : ℚ) / ((ht.length : Nat) : ℚ))⟩,
          by simp [generic_field_check, hn], by simp [hne], by simp, by simp [hne],
          by simp, by simp [generic_field_check],
          by simp [generic_field_check, gfcClassification, hn]⟩
    | some c =>
      cases sp with
      | false =>
        exact ⟨⟨false,
          "Found " ++ toString n ++ " sites that fail " ++ desc ++ " check", none⟩,
          by simp [generic_field_check, hn], by simp [hne], by simp, by simp [hne],
          by simp, by simp [generic_field_check],
          by simp [generic_field_check, gfcClassification, hn]⟩
      | true =>
        exact ⟨⟨false,
          "Found " ++ toString n ++ " sites that fail " ++ desc ++ " check",
          some (100 * (n : ℚ) / ((c : Nat) : ℚ))⟩,
          by simp [generic_field_check, hn], by simp [hne], by simp, by simp [hne],
          by simp, by simp [generic_field_check],
          by simp [generic_field_check, gfcClassification, hn]⟩
  · have hz : n = 0 := by omega
    subst hz
    exact ⟨⟨true, "PASSED " ++ desc ++ " check", none⟩,
      by simp [generic_field_check], by simp, by simp, by simp, by simp,
      by simp [generic_field_check],
      by simp [generic_field_check, gfcClassification]⟩

/-- C9 witness: a concrete failing call (count 2 of 4 rows) is classified
FAILED with percentage 50, and the same count gives the same
classification over a different table. -/
theorem claim_C9_classification_witness :
    ∃ r : GFCReport,
      (generic_field_check ([[("AC-adj", some (5 : Int))]] : List InfoRow)
          "AC-adj greater or equal 0" ["AC-adj"] none false true (some 2)
          (some 4)).res = Except.ok r ∧
      r.passed = false ∧
      r.message = "Found 2 sites that fail AC-adj greater or equal 0 check" ∧
      r.percent = some 50 := by
  have h := claim_C9_classification_pure
    ([[("AC-adj", some (5 : Int))]] : List InfoRow) ([] : List InfoRow)
    "AC-adj greater or equal 0" ["AC-adj"] none none false true 2 (some 4)
  obtain ⟨r, hres, hpass, hmsg, _, hpct, _, _⟩ := h
  refine ⟨r, hres, ?_, ?_, ?_⟩
  · cases hr : r.passed
    · rfl
    · exact absurd (hpass.mp hr) (by omega)
  · simpa using hmsg (by omega)
  · have := hpct (by omega) rfl
    rw [this]
    norm_num

/-- compare_subset_freqs check entries: for every non-empty subset, metric
and tier, one entry labelled "left != right" whose aggregated predicate is
the Hail equality of the whole-callset field and the subset field. -/
def compare_subset_freqs_entries (subsets : List String) (delim : String)
    (metricFirst : Bool) (metrics : List String) : List (FieldCheck InfoRow) :=
  subsets.flatMap (fun subset =>
    if subset ≠ "" then
      metrics.flatMap (fun metric =>
        ["adj", "raw"].map (fun group =>
          let check_field_left := metric ++ delim ++ group
          let check_field_right :=
            if metricFirst then metric ++ delim ++ subset ++ delim ++ group
            else subset ++ delim ++ metric ++ delim ++ group
          { desc := check_field_left ++ " != " ++ check_field_right
            expr := fun r =>
              hailEq (infoGet r check_field_left) (infoGet r check_field_right)
            display := [check_field_left, check_field_right] }))
    else [])

/-- compare_subset_freqs: run the batched loop over the subset-frequency
entries and additionally count the rows with a defined raw AC. -/
def compare_subset_freqs (rows : List InfoRow) (subsets : List String)
    (delim : String) (metricFirst : Bool) (metrics : List String) :
    List (String × Nat) × Nat :=
  (generic_field_check_loop rows
      (compare_subset_freqs_entries subsets delim metricFirst metrics),
   countWhere (fun r => hailIsDefined (infoGet r ("AC" ++ delim ++ "raw"))) rows)

/-- Hail equality evaluates to true exactly on a pair of equal defined
values. -/
theorem hailEq_true_iff (o1 o2 : Option Int) :
    (hailEq o1 o2 == some true) = true ↔ ∃ v, o1 = some v ∧ o2 = some v := by
  cases o1 with
  | none => simp [hailEq, hailLift2]
  | some a =>
    cases o2 with
    | none => simp [hailEq, hailLift2]
    | some b =>
      simp only [hailEq, hailLift2, beq_iff_eq, Option.some.injEq]
      constructor
      · intro h
        have hab : a = b := by simpa using h
        exact ⟨a, rfl, hab ▸ rfl⟩
      · rintro ⟨v, hv1, hv2⟩
        subst hv1
        subst hv2
        simp

/-- Hail strict inequality evaluates to true exactly on a pair of defined
values in that order. -/
theorem hailLt_true_iff (o1 o2 : Option Int) :
    (hailLt o1 o2 == some true) = true ↔ ∃ a b, o1 = some a ∧ o2 = some b ∧ a < b := by
  cases o1 with
  | none => simp [hailLt, hailLift2]
  | some a =>
    cases o2 with
    | none => simp [hailLt, hailLift2]
    | some b =>
      simp only [hailLt, hailLift2, beq_iff_eq, Option.some.injEq]
      constructor
      · intro h
        have : a < b := by simpa using h
        exact ⟨a, b, rfl, rfl, this⟩
      · rintro ⟨x, y, hx, hy, hlt⟩
        subst hx
        subst hy
        simp [hlt]

/-- Membership form of the batching equivalence: every registered entry
contributes its count_where failure count to the loop output. -/
theorem mem_generic_field_check_loop {ρ : Type} (rows : List ρ)
    (entries : List (FieldCheck ρ)) (e : FieldCheck ρ) (he : e ∈ entries) :
    (e.desc, countWhere e.expr rows) ∈ generic_field_check_loop rows entries := by
  rw [generic_field_check_loop_eq, ← hailFilter_length_eq_countWhere]
  exact List.mem_map_of_mem _ he

/-- Whole-callset side of a subset comparison field name. -/
def subsetFreqLeft (metric delim group : String) : String :=
  metric ++ delim ++ group

/-- Subset side of a subset comparison field name. -/
def subsetFreqRight (metricFirst : Bool) (metric delim subset group : String) : String :=
  if metricFirst then metric ++ delim ++ subset ++ delim ++ group
  else subset ++ delim ++ metric ++ delim ++ group

/-- The field-check entry compare_subset_freqs registers for one
(subset, metric, tier) triple. -/
def subsetFreqEntry (metricFirst : Bool) (metric delim subset group : String) :
    FieldCheck InfoRow :=
  { desc := subsetFreqLeft metric delim group ++ " != " ++
      subsetFreqRight metricFirst metric delim subset group
    expr := fun r =>
      hailEq (infoGet r (subsetFreqLeft metric delim group))
        (infoGet r (subsetFreqRight metricFirst metric delim subset group))
    display := [subsetFreqLeft metric delim group,
      subsetFreqRight metricFirst metric delim subset group] }

/-- Concrete one-row fixture on which the whole-callset and subset adj AC
coincide. -/
def c2Row : InfoRow :=
  [("AC-adj", some 5), ("AC-s-adj", some 5), ("AC-raw", some 1), ("AC-s-raw", some 2)]

/-- C2 counterexample: on a one-row table whose whole-callset AC-adj equals
the subset AC-s-adj, the entry labelled "AC-adj != AC-s-adj" reports
failure count 1, while the number of rows on which the two fields differ
is 0 — so the reported count is not the number of differing rows. -/
theorem claim_C2_counterexample_equality_counted :
    (compare_subset_freqs [c2Row] ["s"] "-" true ["AC"]).1.lookup "AC-adj != AC-s-adj" =
        some 1 ∧
    (([c2Row] : List InfoRow).filter
        (fun r => infoGet r "AC-adj" ≠ infoGet r "AC-s-adj")).length = 0 ∧
    ¬ ((compare_subset_freqs [c2Row] ["s"] "-" true ["AC"]).1.lookup "AC-adj != AC-s-adj" =
        some ((([c2Row] : List InfoRow).filter
          (fun r => infoGet r "AC-adj" ≠ infoGet r "AC-s-adj")).length)) := by
  refine ⟨by decide, by decide, by decide⟩

/-- C2 (amended): for every non-empty subset, metric and tier, the entry
labelled "left != right" is registered and its reported failure count is
the number of rows on which the whole-callset field and the subset field
are both defined and EQUAL (a mismatch, or a missing side, is not
counted): the check surfaces unexpected equality, not inequality. -/
theorem claim_C2_flags_equality (rows : List InfoRow) (subsets : List String)
    (delim : String) (metricFirst : Bool) (metrics : List String)
    (subset metric group : String) (hs : subset ∈ subsets) (hne : subset ≠ "")
    (hm : metric ∈ metrics) (hg : group ∈ (["adj", "raw"] : List String)) :
    (subsetFreqLeft metric delim group ++ " != " ++
        subsetFreqRight metricFirst metric delim subset group,
      countWhere (fun r =>
        hailEq (infoGet r (subsetFreqLeft metric delim group))
          (infoGet r (subsetFreqRight metricFirst metric delim subset group))) rows)
      ∈ (compare_subset_freqs rows subsets delim metricFirst metrics).1 ∧
    countWhere (fun r =>
        hailEq (infoGet r (subsetFreqLeft metric delim group))
          (infoGet r (subsetFreqRight metricFirst metric delim subset group))) rows =
      rows.countP (fun r =>
        (infoGet r (subsetFreqLeft metric delim group)).isSome &&
        (infoGet r (subsetFreqLeft metric delim group) ==
          infoGet r (subsetFreqRight metricFirst metric delim subset group))) ∧
    (∀ o1 o2 : Option Int,
      (hailEq o1 o2 == some true) = true ↔ ∃ v, o1 = some v ∧ o2 = some v) := by
  refine ⟨?_, ?_, hailEq_true_iff⟩
  · have he : subsetFreqEntry metricFirst metric delim subset group
        ∈ compare_subset_freqs_entries subsets delim metricFirst metrics := by
      apply List.mem_flatMap.mpr
      refine ⟨subset, hs, ?_⟩
      rw [if_pos hne]
      apply List.mem_flatMap.mpr
      refine ⟨metric, hm, ?_⟩
      apply List.mem_map.mpr
      refine ⟨group, hg, ?_⟩
      simp [subsetFreqEntry, subsetFreqLeft, subsetFreqRight]
    have hmem := mem_generic_field_check_loop rows _ _ he
    simpa [subsetFreqEntry] using hmem
  · apply List.countP_congr
    intro r _
    cases h1 : infoGet r (subsetFreqLeft metric delim group) with
    | none => simp [hailEq, hailLift2, h1]
    | some a =>
      cases h2 : infoGet r (subsetFreqRight metricFirst metric delim subset group) with
      | none => simp [hailEq, hailLift2, h1, h2]
      | some b => simp [hailEq, hailLift2, h1, h2]

/-- C2 (amended) witness: on the concrete fixture the registered entry
reports exactly the one row where the two defined values coincide. -/
theorem claim_C2_flags_equality_witness :
    ("AC-adj != AC-s-adj",
      countWhere (fun r => hailEq (infoGet r "AC-adj") (infoGet r "AC-s-adj")) [c2Row])
      ∈ (compare_subset_freqs [c2Row] ["s"] "-" true ["AC"]).1 ∧
    countWhere (fun r => hailEq (infoGet r "AC-adj") (infoGet r "AC-s-adj")) [c2Row] = 1 := by
  have h := claim_C2_flags_equality [c2Row] ["s"] "-" true ["AC"] "s" "AC" "adj"
    (by decide) (by decide) (by decide) (by decide)
  refine ⟨?_, by decide⟩
  have h1 := h.1
  simpa [subsetFreqLeft, subsetFreqRight] using h1

/-- Field-name label for one raw-vs-adj subset comparison (the subset
delimiter is appended only for a non-empty subset name). -/
def rawAdjLabel (metricFirst : Bool) (subfield delim subset : String) : String :=
  let subsetD := if subset ≠ "" then subset ++ delim else subset
  if metricFirst then subfield ++ delim ++ subsetD else subsetD ++ subfield ++ delim

/-- The raw-greater-or-equal-adj field-check entry for one subfield label. -/
def rawAdjGeEntry (label : String) : FieldCheck InfoRow :=
  { desc := label ++ "raw" ++ " >= " ++ label ++ "adj"
    expr := fun r => hailLt (infoGet r (label ++ "raw")) (infoGet r (label ++ "adj"))
    display := [label ++ "raw", label ++ "adj"] }

/-- Definedness-consistency entry of check_raw_and_adj_callstats: AC or
nhomalt must be defined exactly when AN is defined in the same tier. -/
def definedWithAnEntry (subfield delim group : String) : FieldCheck InfoRow :=
  { desc := subfield ++ delim ++ group ++
      " defined when AN defined and missing when AN missing"
    expr := fun r =>
      hailIfElse (hailIsMissing (infoGet r ("AN" ++ delim ++ group)))
        (hailIsDefined (infoGet r (subfield ++ delim ++ group)))
        (hailIsMissing (infoGet r (subfield ++ delim ++ group)))
    display := ["AN" ++ delim ++ group, subfield ++ delim ++ group] }

/-- AF definedness entry of check_raw_and_adj_callstats. -/
def afDefinedEntry (delim group : String) : FieldCheck InfoRow :=
  { desc := "AF" ++ delim ++ group ++
      " defined when AN defined (and > 0) and missing when AN missing"
    expr := fun r =>
      hailIfElse (hailIsMissing (infoGet r ("AN" ++ delim ++ group)))
        (hailIsDefined (infoGet r ("AF" ++ delim ++ group)))
        (hailAnd (hailGt (infoGet r ("AN" ++ delim ++ group)) (some 0))
          (hailIsMissing (infoGet r ("AF" ++ delim ++ group))))
    display := ["AN" ++ delim ++ group, "AF" ++ delim ++ group] }

/-- AF-missing-at-AN-zero entry of check_raw_and_adj_callstats. -/
def afMissingAnZeroEntry (delim group : String) : FieldCheck InfoRow :=
  { desc := "AF" ++ delim ++ group ++ " missing when AN 0"
    expr := fun r =>
      hailAnd (hailEq (infoGet r ("AN" ++ delim ++ group)) (some 0))
        (hailIsDefined (infoGet r ("AF" ++ delim ++ group)))
    display := ["AN" ++ delim ++ group, "AF" ++ delim ++ group] }

/-- Raw-positivity entry of check_raw_and_adj_callstats. -/
def rawPositiveEntry (subfield delim : String) : FieldCheck InfoRow :=
  { desc := subfield ++ delim ++ "raw" ++ " > 0"
    expr := fun r => hailLe (infoGet r (subfield ++ delim ++ "raw")) (some 0)
    display := [subfield ++ delim ++ "raw"] }

/-- Adj-nonnegativity entry of check_raw_and_adj_callstats. -/
def adjNonnegEntry (subfield delim : String) : FieldCheck InfoRow :=
  { desc := subfield ++ delim ++ "adj" ++ " >= 0"
    expr := fun r => hailLt (infoGet r (subfield ++ delim ++ "adj")) (some 0)
    display := [subfield ++ delim ++ "adj", "filters"] }

/-- check_raw_and_adj_callstats check entries, assembled in source order:
per-tier definedness consistency of AC/nhomalt/AF against AN, AF
missing at AN zero, positivity of the raw and adj AC/AF, and raw-tier
greater-or-equal adj-tier for AC/AN/nhomalt overall and per subset. -/
def check_raw_and_adj_callstats_entries (subsets : List String) (delim : String)
    (metricFirst : Bool) : List (FieldCheck InfoRow) :=
  (["raw", "adj"].flatMap (fun group =>
    (["AC", "nhomalt"].map (fun subfield => definedWithAnEntry subfield delim group)) ++
    [afDefinedEntry delim group, afMissingAnZeroEntry delim group])) ++
  (["AC", "AF"].flatMap (fun subfield =>
    [rawPositiveEntry subfield delim, adjNonnegEntry subfield delim])) ++
  (["AC", "AN", "nhomalt"].flatMap (fun subfield =>
    rawAdjGeEntry (subfield ++ delim) ::
    subsets.map (fun subset => rawAdjGeEntry (rawAdjLabel metricFirst subfield delim subset))))

/-- check_raw_and_adj_callstats: one batched aggregation pass over all the
raw/adj entries; one (description, failure count) pair per entry. -/
def check_raw_and_adj_callstats (rows : List InfoRow) (subsets : List String)
    (delim : String) (metricFirst : Bool) : List (String × Nat) :=
  generic_field_check_loop rows (check_raw_and_adj_callstats_entries subsets delim metricFirst)

/-- C4: for every subfield among AC, AN, nhomalt and every configured
subset (the empty-string whole callset included),
check_raw_and_adj_callstats registers the entry "label-raw >= label-adj"
whose failure count is the number of rows on which the raw-tier value is
strictly below the adj-tier value (under Hail semantics: both values
defined and raw < adj); the check passes — count 0 — exactly when every
row with both tiers defined satisfies raw >= adj. -/
theorem claim_C4_raw_ge_adj (rows : List InfoRow) (subsets : List String)
    (delim : String) (metricFirst : Bool) (subfield subset : String)
    (hf : subfield ∈ (["AC", "AN", "nhomalt"] : List String)) (hs : subset ∈ subsets) :
    ((rawAdjLabel metricFirst subfield delim subset ++ "raw" ++ " >= " ++
        rawAdjLabel metricFirst subfield delim subset ++ "adj",
      countWhere (fun r =>
        hailLt (infoGet r (rawAdjLabel metricFirst subfield delim subset ++ "raw"))
          (infoGet r (rawAdjLabel metricFirst subfield delim subset ++ "adj"))) rows)
      ∈ check_raw_and_adj_callstats rows subsets delim metricFirst) ∧
    (countWhere (fun r =>
        hailLt (infoGet r (rawAdjLabel metricFirst subfield delim subset ++ "raw"))
          (infoGet r (rawAdjLabel metricFirst subfield delim subset ++ "adj"))) rows = 0 ↔
      ∀ r ∈ rows, ∀ a b : Int,
        infoGet r (rawAdjLabel metricFirst subfield delim subset ++ "raw") = some a →
        infoGet r (rawAdjLabel metricFirst subfield delim subset ++ "adj") = some b →
        b ≤ a) ∧
    (∀ o1 o2 : Option Int,
      (hailLt o1 o2 == some true) = true ↔ ∃ a b, o1 = some a ∧ o2 = some b ∧ a < b) := by
  refine ⟨?_, ?_, hailLt_true_iff⟩
  · have he : rawAdjGeEntry (rawAdjLabel metricFirst subfield delim subset)
        ∈ check_raw_and_adj_callstats_entries subsets delim metricFirst := by
      unfold check_raw_and_adj_callstats_entries
      apply List.mem_append_right
      apply List.mem_flatMap.mpr
      refine ⟨subfield, hf, ?_⟩
      exact List.mem_cons_of_mem _ (List.mem_map_of_mem _ hs)
    have hmem := mem_generic_field_check_loop rows _ _ he
    simpa [rawAdjGeEntry] using hmem
  · rw [countWhere, List.countP_eq_zero]
    constructor
    · intro h r hr a b ha hb
      by_contra hab
      have : a < b := by omega
      exact h r hr ((hailLt_true_iff _ _).mpr ⟨a, b, ha, hb, this⟩)
    · intro h r hr
      simp only [hailLt_true_iff]
      rintro ⟨a, b, ha, hb, hab⟩
      exact absurd (h r hr a b ha hb) (by omega)

/-- C4 witness: on a one-row whole-callset fixture with AC-raw 2 below
AC-adj 3, the registered raw-vs-adj entry is present and counts exactly
that one violating row. -/
theorem claim_C4_raw_ge_adj_witness :
    ("AC-" ++ "raw" ++ " >= " ++ "AC-" ++ "adj",
      countWhere (fun r => hailLt (infoGet r ("AC-" ++ "raw")) (infoGet r ("AC-" ++ "adj")))
        [[("AC-raw", some 2), ("AC-adj", some 3)]])
      ∈ check_raw_and_adj_callstats [[("AC-raw", some 2), ("AC-adj", some 3)]] [""] "-" true ∧
    countWhere (fun r => hailLt (infoGet r ("AC-" ++ "raw")) (infoGet r ("AC-" ++ "adj")))
        [[("AC-raw", some 2), ("AC-adj", some 3)]] = 1 := by
  have h1 := (claim_C4_raw_ge_adj [[("AC-raw", some 2), ("AC-adj", some 3)]] [""] "-"
    true "AC" "" (by decide) (by decide)).1
  have hl : rawAdjLabel true "AC" "-" "" = "AC-" := by decide
  rw [hl] at h1
  exact ⟨h1, by decide⟩

/-- Canonical-order selection of the axis names present among the label
group keys (the canonical ordering is the global sort-order list). -/
def orderedKeys (sortOrder : List String) (keys : List String) : List String :=
  sortOrder.filter (fun a => a ∈ keys)

/-- Modelled from the spec: gnomad.utils.vcf.make_label_combos is not under
src/ (only its caller is). Per the spec it returns the full Cartesian
product of one value per axis, axes visited in the canonical sort order
rather than insertion order, each combination rendered as its values
joined by the delimiter. -/
def makeLabelCombos (labelGroups : List (String × List String))
    (sortOrder : List String) (delim : String) : List String :=
  let axes := (orderedKeys sortOrder (labelGroups.map Prod.fst)).map
    (fun k => (labelGroups.lookup k).getD [])
  (axes.foldr (fun vals acc => vals.flatMap (fun v => acc.map (fun c => v :: c)))
      [[]]).map (String.intercalate delim)

/-- hl.sum over a list of optional values: missing elements are skipped,
the empty sum is 0. -/
def hailSum (vs : List (Option Int)) : Option Int :=
  some ((vs.filterMap id).sum)

/-- Subset label with its trailing delimiter (appended only when the
subset names a proper cohort, not the empty-string whole callset). -/
def subsetWithDelim (subset delim : String) : String :=
  if subset ≠ "" then subset ++ delim else subset

/-- Field prefix for one metric of a group sum (metric before or after the
subset according to the ordering flag). -/
def groupSumFieldPfx (metricFirst : Bool) (metric delim subset : String) : String :=
  if metricFirst then metric ++ delim ++ subsetWithDelim subset delim
  else subsetWithDelim subset delim ++ metric ++ delim

/-- Output of a successful make_group_sum_expr_dict call: for each metric
the annotation-dictionary key with the field names actually summed, the
warnings logged for absent combination fields, and the field-check
entries. -/
structure GroupSumResult where
  sumFields : List (String × List String)
  warnings : List String
  checks : List (FieldCheck InfoRow)

/-- Body of make_group_sum_expr_dict after the "group" key has been popped:
sums for each metric the combination fields present in the info schema
(logging a warning for each absent one, never failing on it) and builds
one sum-comparison entry per metric.  The Python IndexError on an empty
group list, the ValueError of sorting a key missing from the sort order,
and the KeyError of reading an absent comparison field off the info
struct surface as errors. -/
def group_sum_body (infoFields : List String) (subset : String) (combos : List String)
    (lg2keys : List String) (sortOrder : List String) (delim : String)
    (metricFirst : Bool) (metrics : List String) (gvals : List String) :
    Except String GroupSumResult :=
  match gvals with
  | [] => Except.error "IndexError: list index out of range"
  | group :: _ =>
    if lg2keys.all (fun k => k ∈ sortOrder) then
      let sumGroup := String.intercalate delim (orderedKeys sortOrder lg2keys)
      let annot := metrics.map (fun metric =>
        ("sum" ++ delim ++ groupSumFieldPfx metricFirst metric delim subset ++
            group ++ delim ++ sumGroup,
         (combos.filter (fun label =>
            (groupSumFieldPfx metricFirst metric delim subset ++ label) ∈ infoFields)).map
           (fun label => groupSumFieldPfx metricFirst metric delim subset ++ label)))
      let warnings := metrics.flatMap (fun metric =>
        (combos.filter (fun label =>
            (groupSumFieldPfx metricFirst metric delim subset ++ label) ∉ infoFields)).map
          (fun label => groupSumFieldPfx metricFirst metric delim subset ++ label ++
            " is not in table's info field"))
      if metrics.all (fun metric =>
          (groupSumFieldPfx metricFirst metric delim subset ++ group) ∈ infoFields) then
        let checks := metrics.map (fun metric =>
          let left := groupSumFieldPfx metricFirst metric delim subset ++ group
          let present := (combos.filter (fun label =>
            (groupSumFieldPfx metricFirst metric delim subset ++ label) ∈ infoFields)).map
              (fun label => groupSumFieldPfx metricFirst metric delim subset ++ label)
          ({ desc := left ++ " = " ++ "sum" ++ delim ++ left ++ delim ++ sumGroup
             expr := fun r =>
               hailNe (infoGet r left) (hailSum (present.map (fun f => infoGet r f)))
             display := [left, "sum" ++ delim ++ left ++ delim ++ sumGroup] } :
            FieldCheck InfoRow))
        Except.ok { sumFields := annot, warnings := warnings, checks := checks }
      else Except.error "KeyError: comparison field not in info struct"
    else Except.error "ValueError: substring not found"

/-- make_group_sum_expr_dict with the label-group dictionary passed as
explicit state: the source calls label_groups.pop("group"), mutating the
caller's dictionary (a KeyError when the key is absent), then builds the
checks; the second component returned is the caller's dictionary after
the call. -/
def make_group_sum_expr_dict (infoFields : List String) (subset : String)
    (labelGroups : List (String × List String)) (sortOrder : List String)
    (delim : String) (metricFirst : Bool) (metrics : List String) :
    Except String GroupSumResult × List (String × List String) :=
  match labelGroups.lookup "group" with
  | none => (Except.error "KeyError: group", labelGroups)
  | some gvals =>
    (group_sum_body infoFields subset (makeLabelCombos labelGroups sortOrder delim)
      ((labelGroups.filter (fun kv => kv.1 ≠ "group")).map Prod.fst)
      sortOrder delim metricFirst metrics gvals,
     labelGroups.filter (fun kv => kv.1 ≠ "group"))

theorem lookup_isSome_iff_mem_keys {β : Type} (a : String) (l : List (String × β)) :
    (l.lookup a).isSome = true ↔ a ∈ l.map Prod.fst := by
  induction l with
  | nil => simp
  | cons kv rest ih =>
    by_cases h : a = kv.1
    · subst h
      simp [List.lookup]
    · cases kv with
    | mk k v =>
      simp only [List.map_cons, List.mem_cons]
      rw [List.lookup]
      simp only at h
      have hne : (a == k) = false := by
        simp [h]
      rw [hne]
      simp only [ih]
      constructor
      · exact Or.inr
      · rintro (hak | hmem)
        · exact absurd hak h
        · exact hmem

theorem group_notMem_filtered_keys (l : List (String × List String)) :
    "group" ∉ (l.filter (fun kv => kv.1 ≠ "group")).map Prod.fst := by
  intro hmem
  obtain ⟨kv, hkv, hfst⟩ := List.mem_map.mp hmem
  have hne := (List.mem_filter.mp hkv).2
  rw [hfst] at hne
  simp at hne

/-- C10: make_group_sum_expr_dict mutates its label_groups argument: when
the dictionary holds a "group" key the call removes it (the state coming
back is the dictionary without that key), so a second call reusing the
returned dictionary — like any call whose label_groups lacks "group" —
raises a KeyError instead of returning a check dictionary. -/
theorem claim_C10_pops_group_key (infoFields : List String) (subset : String)
    (lg : List (String × List String)) (sortOrder : List String) (delim : String)
    (mf : Bool) (metrics : List String) :
    ("group" ∈ lg.map Prod.fst →
      (make_group_sum_expr_dict infoFields subset lg sortOrder delim mf metrics).2 =
          lg.filter (fun kv => kv.1 ≠ "group") ∧
      "group" ∉
        ((make_group_sum_expr_dict infoFields subset lg sortOrder delim mf
          metrics).2.map Prod.fst) ∧
      (make_group_sum_expr_dict infoFields subset
          ((make_group_sum_expr_dict infoFields subset lg sortOrder delim mf metrics).2)
          sortOrder delim mf metrics).1 = Except.error "KeyError: group") ∧
    ("group" ∉ lg.map Prod.fst →
      (make_group_sum_expr_dict infoFields subset lg sortOrder delim mf metrics).1 =
        Except.error "KeyError: group") := by
  constructor
  · intro hmem
    have hsome : (lg.lookup "group").isSome = true :=
      (lookup_isSome_iff_mem_keys _ _).mpr hmem
    obtain ⟨gvals, hg⟩ := Option.isSome_iff_exists.mp hsome
    have hsnd : (make_group_sum_expr_dict infoFields subset lg sortOrder delim mf
        metrics).2 = lg.filter (fun kv => kv.1 ≠ "group") := by
      unfold make_group_sum_expr_dict
      rw [hg]
    refine ⟨hsnd, ?_, ?_⟩
    · rw [hsnd]
      exact group_notMem_filtered_keys lg
    · rw [hsnd]
      have hnone : ((lg.filter (fun kv => kv.1 ≠ "group")).lookup "group") = none := by
        rw [← Option.not_isSome_iff_eq_none]
        intro hs
        exact group_notMem_filtered_keys lg ((lookup_isSome_iff_mem_keys _ _).mp hs)
      unfold make_group_sum_expr_dict
      rw [hnone]
  · intro hnm
    have hnone : lg.lookup "group" = none := by
      rw [← Option.not_isSome_iff_eq_none]
      intro hs
      exact hnm ((lookup_isSome_iff_mem_keys _ _).mp hs)
    unfold make_group_sum_expr_dict
    rw [hnone]

/-- C10 witness: one concrete call removes "group" from the dictionary and
a second call on the returned dictionary raises the KeyError. -/
theorem claim_C10_pops_group_key_witness :
    (make_group_sum_expr_dict ["AC-adj", "AC-afr-adj"] ""
        [("group", ["adj"]), ("pop", ["afr"])] ["pop", "sex", "group"] "-" true
        ["AC"]).2 = [("pop", ["afr"])] ∧
    (make_group_sum_expr_dict ["AC-adj", "AC-afr-adj"] ""
        ((make_group_sum_expr_dict ["AC-adj", "AC-afr-adj"] ""
          [("group", ["adj"]), ("pop", ["afr"])] ["pop", "sex", "group"] "-" true
          ["AC"]).2) ["pop", "sex", "group"] "-" true ["AC"]).1 =
      Except.error "KeyError: group" := by
  have h := (claim_C10_pops_group_key ["AC-adj", "AC-afr-adj"] ""
    [("group", ["adj"]), ("pop", ["afr"])] ["pop", "sex", "group"] "-" true
    ["AC"]).1 (by decide)
  obtain ⟨h1, _, h3⟩ := h
  refine ⟨?_, h3⟩
  rw [h1]
  decide

/-- C7: when make_group_sum_expr_dict assembles the sum for a metric over
the label combinations of an axis set, every combination whose
constructed field name is absent from the info fields is skipped with a
logged warning, and the summation for that metric is built from exactly
the combinations whose fields are present; an absent combination never
aborts the check family (the call still returns its check dictionary,
with one entry per metric). -/
theorem claim_C7_absent_fields_skipped (infoFields : List String) (subset : String)
    (lg : List (String × List String)) (sortOrder : List String) (delim : String)
    (mf : Bool) (metrics : List String) (metric group : String) (rest : List String)
    (hm : metric ∈ metrics)
    (hg : lg.lookup "group" = some (group :: rest))
    (hkeys : ((lg.filter (fun kv => kv.1 ≠ "group")).map Prod.fst).all
      (fun k => k ∈ sortOrder) = true)
    (hleft : metrics.all (fun m =>
      (groupSumFieldPfx mf m delim subset ++ group) ∈ infoFields) = true) :
    ∃ res : GroupSumResult,
      (make_group_sum_expr_dict infoFields subset lg sortOrder delim mf metrics).1 =
        Except.ok res ∧
      ("sum" ++ delim ++ groupSumFieldPfx mf metric delim subset ++ group ++ delim ++
          String.intercalate delim
            (orderedKeys sortOrder ((lg.filter (fun kv => kv.1 ≠ "group")).map Prod.fst)),
        ((makeLabelCombos lg sortOrder delim).filter (fun label =>
            (groupSumFieldPfx mf metric delim subset ++ label) ∈ infoFields)).map
          (fun label => groupSumFieldPfx mf metric delim subset ++ label))
        ∈ res.sumFields ∧
      (∀ label ∈ makeLabelCombos lg sortOrder delim,
        (groupSumFieldPfx mf metric delim subset ++ label) ∉ infoFields →
        (groupSumFieldPfx mf metric delim subset ++ label ++
          " is not in table's info field") ∈ res.warnings) ∧
      res.checks.length = metrics.length := by
  unfold make_group_sum_expr_dict
  rw [hg]
  unfold group_sum_body
  simp only [hkeys, hleft, if_true]
  refine ⟨_, rfl, ?_, ?_, ?_⟩
  · exact List.mem_map_of_mem _ hm
  · intro label hlab habs
    apply List.mem_flatMap.mpr
    refine ⟨metric, hm, ?_⟩
    apply List.mem_map_of_mem
    apply List.mem_filter.mpr
    exact ⟨hlab, by simpa using habs⟩
  · simp

/-- C7 witness: with populations afr and amr but only the afr field in the
info schema, the amr combination is skipped with a warning, the sum is
built from the afr field alone, and the call returns its check entry. -/
theorem claim_C7_absent_fields_skipped_witness :
    ∃ res : GroupSumResult,
      (make_group_sum_expr_dict ["AC-adj", "AC-afr-adj"] ""
          [("group", ["adj"]), ("pop", ["afr", "amr"])] ["pop", "sex", "group"] "-"
          true ["AC"]).1 = Except.ok res ∧
      ("sum-AC-adj-pop", ["AC-afr-adj"]) ∈ res.sumFields ∧
      "AC-amr-adj is not in table's info field" ∈ res.warnings ∧
      res.checks.length = 1 := by
  have h := claim_C7_absent_fields_skipped ["AC-adj", "AC-afr-adj"] ""
    [("group", ["adj"]), ("pop", ["afr", "amr"])] ["pop", "sex", "group"] "-"
    true ["AC"] "AC" "adj" [] (by decide) (by decide) (by decide) (by decide)
  obtain ⟨res, hok, hsum, hwarn, hlen⟩ := h
  refine ⟨res, hok, ?_, ?_, hlen⟩
  · have hev : ("sum" ++ "-" ++ groupSumFieldPfx true "AC" "-" "" ++ "adj" ++ "-" ++
        String.intercalate "-"
          (orderedKeys ["pop", "sex", "group"]
            (([("group", ["adj"]), ("pop", ["afr", "amr"])].filter
              (fun kv => kv.1 ≠ "group")).map Prod.fst)),
        ((makeLabelCombos [("group", ["adj"]), ("pop", ["afr", "amr"])]
            ["pop", "sex", "group"] "-").filter (fun label =>
            (groupSumFieldPfx true "AC" "-" "" ++ label) ∈ ["AC-adj", "AC-afr-adj"])).map
          (fun label => groupSumFieldPfx true "AC" "-" "" ++ label)) =
        ("sum-AC-adj-pop", ["AC-afr-adj"]) := by decide
    rw [hev] at hsum
    exact hsum
  · have hw := hwarn "amr-adj" (by decide) (by decide)
    have hev2 : (groupSumFieldPfx true "AC" "-" "" ++ "amr-adj" ++
        " is not in table's info field") = "AC-amr-adj is not in table's info field" := by
      decide
    rw [hev2] at hw
    exact hw

/-- Primitive (scalar) Hail value. -/
inductive PrimV where
  | pint : Int → PrimV
  | pstr : String → PrimV
deriving DecidableEq

/- Schema of a nested struct expression, mirroring the four value shapes
check_missingness_of_struct dispatches on: scalar, array, set, struct. -/
mutual
inductive Schema where
  | sprim : Schema
  | sarr : Schema
  | sset : Schema
  | snode : FieldsSchema → Schema
inductive FieldsSchema where
  | fnil : FieldsSchema
  | fcons : String → Schema → FieldsSchema → FieldsSchema
end

/- One nested struct value of a row (missing at any level is none). -/
mutual
inductive SVal where
  | prim : Option PrimV → SVal
  | arr : Option (List (Option PrimV)) → SVal
  | sett : Option (List (Option PrimV)) → SVal
  | strct : Option SFields → SVal
inductive SFields where
  | fnil : SFields
  | fcons : String → SVal → SFields → SFields
end

/-- Lookup of a field inside a struct value. -/
def lookupF (k : String) : SFields → Option SVal
  | SFields.fnil => none
  | SFields.fcons k2 v rest => if k = k2 then some v else lookupF k rest

/-- Subfield access struct_expr[key]; missingness of an enclosing struct
propagates into the subfield (the expression evaluates to NA). -/
def subField (k : String) : SVal → SVal
  | SVal.strct (some fs) => (lookupF k fs).getD (SVal.prim none)
  | _ => SVal.prim none

/-- Row-level missingness of one leaf value, as the source computes it:
a scalar is missing when NA; an array or set counts as missing when it
is NA (or_else branch), empty, or every element is individually missing
(the .all aggregation). -/
def leafMissing : SVal → Bool
  | SVal.prim o => o.isNone
  | SVal.arr o => (o.map (fun xs => xs.all (fun x => x.isNone))).getD true
  | SVal.sett o => (o.map (fun xs => xs.all (fun x => x.isNone))).getD true
  | SVal.strct _ => false

/-- hl.agg.fraction over the rows of a table (0 on an empty table). -/
def aggFraction {ρ : Type} (p : ρ → Bool) (rows : List ρ) : ℚ :=
  ((rows.countP p : Nat) : ℚ) / ((rows.length : Nat) : ℚ)

/- check_missingness_of_struct: recursively walk the schema; at a struct,
recurse into every field with the dotted prefix; at a leaf, produce the
fraction of rows on which the leaf is missing (the aggregation of the
returned expression dictionary is folded in). -/
mutual
def check_missingness_of_struct (rows : List SVal) (s : Schema) (pfx : String) :
    List (String × ℚ) :=
  match s with
  | Schema.snode fs => check_missingness_fields rows fs pfx
  | Schema.sprim => [(pfx, aggFraction leafMissing rows)]
  | Schema.sarr => [(pfx, aggFraction leafMissing rows)]
  | Schema.sset => [(pfx, aggFraction leafMissing rows)]
def check_missingness_fields (rows : List SVal) (fs : FieldsSchema) (pfx : String) :
    List (String × ℚ) :=
  match fs with
  | FieldsSchema.fnil => []
  | FieldsSchema.fcons k sub rest =>
    check_missingness_of_struct (rows.map (subField k)) sub (pfx ++ "." ++ k) ++
    check_missingness_fields rows rest pfx
end

theorem aggFraction_nonneg {ρ : Type} (p : ρ → Bool) (rows : List ρ) :
    0 ≤ aggFraction p rows := by
  unfold aggFraction
  positivity

theorem aggFraction_le_one {ρ : Type} (p : ρ → Bool) (rows : List ρ) :
    aggFraction p rows ≤ 1 := by
  unfold aggFraction
  rcases Nat.eq_zero_or_pos rows.length with hz | hp
  · rw [hz]
    have hc : rows.countP p = 0 := by
      have := List.countP_le_length p (l := rows)
      omega
    rw [hc]
    norm_num
  · rw [div_le_one (by positivity)]
    have := List.countP_le_length p (l := rows)
    exact_mod_cast this

/- Mutual structural induction: every fraction the walker produces lies in
the unit interval. -/
mutual
theorem fractions_bounded_schema (rows : List SVal) (s : Schema) (pfx : String) :
    ∀ q ∈ check_missingness_of_struct rows s pfx, 0 ≤ q.2 ∧ q.2 ≤ 1 :=
  match s with
  | Schema.snode fs => fun q hq => fractions_bounded_fields rows fs pfx q hq
  | Schema.sprim => fun q hq => by
    simp only [check_missingness_of_struct, List.mem_singleton] at hq
    subst hq
    exact ⟨aggFraction_nonneg _ _, aggFraction_le_one _ _⟩
  | Schema.sarr => fun q hq => by
    simp only [check_missingness_of_struct, List.mem_singleton] at hq
    subst hq
    exact ⟨aggFraction_nonneg _ _, aggFraction_le_one _ _⟩
  | Schema.sset => fun q hq => by
    simp only [check_missingness_of_struct, List.mem_singleton] at hq
    subst hq
    exact ⟨aggFraction_nonneg _ _, aggFraction_le_one _ _⟩
theorem fractions_bounded_fields (rows : List SVal) (fs : FieldsSchema) (pfx : String) :
    ∀ q ∈ check_missingness_fields rows fs pfx, 0 ≤ q.2 ∧ q.2 ≤ 1 :=
  match fs with
  | FieldsSchema.fnil => fun q hq => by
    simp [check_missingness_fields] at hq
  | FieldsSchema.fcons k sub rest => fun q hq => by
    simp only [check_missingness_fields, List.mem_append] at hq
    rcases hq with hq | hq
    · exact fractions_bounded_schema (rows.map (subField k)) sub (pfx ++ "." ++ k) q hq
    · exact fractions_bounded_fields rows rest pfx q hq
end

/-- Schema of the 5-row nested fixture of the test suite: a scalar a, a
scalar b, and a sub-struct c with an array d, a scalar e and a set f. -/
def c5Schema : Schema :=
  Schema.snode (FieldsSchema.fcons "a" Schema.sprim
    (FieldsSchema.fcons "b" Schema.sprim
      (FieldsSchema.fcons "c" (Schema.snode
        (FieldsSchema.fcons "d" Schema.sarr
          (FieldsSchema.fcons "e" Schema.sprim
            (FieldsSchema.fcons "f" Schema.sset FieldsSchema.fnil))))
        FieldsSchema.fnil))) 

/-- Row 0 of the fixture. -/
def c5Row0 : SVal :=
  SVal.strct (some (SFields.fcons "a" (SVal.prim (some (PrimV.pint 1)))
    (SFields.fcons "b" (SVal.prim (some (PrimV.pstr "value1")))
      (SFields.fcons "c" (SVal.strct (some
        (SFields.fcons "d" (SVal.arr (some [none, none]))
          (SFields.fcons "e" (SVal.prim (some (PrimV.pstr "test1")))
            (SFields.fcons "f" (SVal.sett (some [some (PrimV.pstr "v1"),
              some (PrimV.pstr "v2")])) SFields.fnil)))))
        SFields.fnil))))

/-- Row 1 of the fixture. -/
def c5Row1 : SVal :=
  SVal.strct (some (SFields.fcons "a" (SVal.prim (some (PrimV.pint 2)))
    (SFields.fcons "b" (SVal.prim (some (PrimV.pstr "value2")))
      (SFields.fcons "c" (SVal.strct (some
        (SFields.fcons "d" (SVal.arr (some [some (PrimV.pstr "not missing"), none]))
          (SFields.fcons "e" (SVal.prim none)
            (SFields.fcons "f" (SVal.sett (some [some (PrimV.pstr "v3"), none]))
              SFields.fnil)))))
        SFields.fnil))))

/-- Row 2 of the fixture. -/
def c5Row2 : SVal :=
  SVal.strct (some (SFields.fcons "a" (SVal.prim (some (PrimV.pint 3)))
    (SFields.fcons "b" (SVal.prim none)
      (SFields.fcons "c" (SVal.strct (some
        (SFields.fcons "d" (SVal.arr none)
          (SFields.fcons "e" (SVal.prim none)
            (SFields.fcons "f" (SVal.sett (some [])) SFields.fnil)))))
        SFields.fnil))))

/-- Row 3 of the fixture. -/
def c5Row3 : SVal :=
  SVal.strct (some (SFields.fcons "a" (SVal.prim (some (PrimV.pint 4)))
    (SFields.fcons "b" (SVal.prim (some (PrimV.pstr "value3")))
      (SFields.fcons "c" (SVal.strct (some
        (SFields.fcons "d" (SVal.arr (some [some (PrimV.pstr "foo"),
            some (PrimV.pstr "bar")]))
          (SFields.fcons "e" (SVal.prim (some (PrimV.pstr "test2")))
            (SFields.fcons "f" (SVal.sett (some [])) SFields.fnil)))))
        SFields.fnil))))

/-- Row 4 of the fixture. -/
def c5Row4 : SVal :=
  SVal.strct (some (SFields.fcons "a" (SVal.prim (some (PrimV.pint 5)))
    (SFields.fcons "b" (SVal.prim (some (PrimV.pstr "value4")))
      (SFields.fcons "c" (SVal.strct (some
        (SFields.fcons "d" (SVal.arr (some []))
          (SFields.fcons "e" (SVal.prim (some (PrimV.pstr "test3")))
            (SFields.fcons "f" (SVal.sett (some [])) SFields.fnil)))))
        SFields.fnil))))

/-- The five fixture rows. -/
def c5Rows : List SVal := [c5Row0, c5Row1, c5Row2, c5Row3, c5Row4]

/-- C5: in the missingness walker, a leaf scalar counts as missing exactly
when absent, and a leaf array or set counts as missing exactly when
absent, empty, or with every element individually missing; on the fixed
5-row nested fixture the computed fractions are exactly a 0.0, b 0.2,
c.d 0.6, c.e 0.4, c.f 0.6; and every fraction the walker ever computes
lies in the closed unit interval. -/
theorem claim_C5_missingness_walker :
    (∀ o : Option PrimV, leafMissing (SVal.prim o) = true ↔ o = none) ∧
    (∀ v : Option (List (Option PrimV)),
      leafMissing (SVal.arr v) = true ↔
        (v = none ∨ v = some [] ∨ ∃ xs, v = some xs ∧ ∀ x ∈ xs, x = none)) ∧
    (∀ v : Option (List (Option PrimV)),
      leafMissing (SVal.sett v) = true ↔
        (v = none ∨ v = some [] ∨ ∃ xs, v = some xs ∧ ∀ x ∈ xs, x = none)) ∧
    check_missingness_of_struct c5Rows c5Schema "s" =
      [("s.a", 0), ("s.b", 0.2), ("s.c.d", 0.6), ("s.c.e", 0.4), ("s.c.f", 0.6)] ∧
    (∀ (rows : List SVal) (s : Schema) (pfx : String),
      ∀ q ∈ check_missingness_of_struct rows s pfx, 0 ≤ q.2 ∧ q.2 ≤ 1) := by
  refine ⟨?_, ?_, ?_, ?_, fun rows s pfx => fractions_bounded_schema rows s pfx⟩
  · intro o
    cases o <;> simp [leafMissing]
  · intro v
    cases v with
    | none => simp [leafMissing]
    | some xs =>
      constructor
      · intro h
        refine Or.inr (Or.inr ⟨xs, rfl, ?_⟩)
        intro x hx
        have hall : xs.all (fun x => x.isNone) = true := by
          simpa [leafMissing] using h
        simpa using List.all_eq_true.mp hall x hx
      · rintro (h | h | ⟨ys, hys, hall⟩)
        · exact absurd h (by simp)
        · have hxs : xs = [] := by injection h
          subst hxs
          simp [leafMissing]
        · have hxs : xs = ys := by injection hys
          subst hxs
          have hb : xs.all (fun x => x.isNone) = true := by
            rw [List.all_eq_true]
            intro x hx
            simp [hall x hx]
          simp [leafMissing, hb]
  · intro v
    cases v with
    | none => simp [leafMissing]
    | some xs =>
      constructor
      · intro h
        refine Or.inr (Or.inr ⟨xs, rfl, ?_⟩)
        intro x hx
        have hall : xs.all (fun x => x.isNone) = true := by
          simpa [leafMissing] using h
        simpa using List.all_eq_true.mp hall x hx
      · rintro (h | h | ⟨ys, hys, hall⟩)
        · exact absurd h (by simp)
        · have hxs : xs = [] := by injection h
          subst hxs
          simp [leafMissing]
        · have hxs : xs = ys := by injection hys
          subst hxs
          have hb : xs.all (fun x => x.isNone) = true := by
            rw [List.all_eq_true]
            intro x hx
            simp [hall x hx]
          simp [leafMissing, hb]
  · show check_missingness_of_struct c5Rows c5Schema "s" = _
    simp [c5Rows, c5Row0, c5Row1, c5Row2, c5Row3, c5Row4, c5Schema,
      check_missingness_of_struct, check_missingness_fields,
      subField, lookupF, leafMissing, aggFraction]
    norm_num

/-- C5 witness: a non-empty all-missing array counts as missing and the
fixture's c.d fraction 0.6 is inside the unit interval. -/
theorem claim_C5_missingness_walker_witness :
    leafMissing (SVal.arr (some [none, none])) = true ∧
    ((0 : ℚ) ≤ (0.6 : ℚ) ∧ (0.6 : ℚ) ≤ 1) := by
  have h := claim_C5_missingness_walker
  constructor
  · exact (h.2.1 (some [none, none])).mpr (Or.inr (Or.inr ⟨[none, none], rfl, by simp⟩))
  · have hq := h.2.2.2.2 c5Rows c5Schema "s" ("s.c.d", 0.6)
      (by rw [h.2.2.2.1]; simp)
    exact hq

/-- One row's value of an array-of-structs annotation: a list of optional
element structs, each an association list from subfield name to optional
value. -/
abbrev URow (α : Type) := List (Option (List (String × Option α)))

/-- Table shape consumed by unfurl_array_annotations: the row-annotation
names, the global-annotation names, the element-struct subfield names
(the keys of ht[array][0]), the evaluated index dictionary, and the
rows' array values. -/
structure UnfurlTable (α : Type) where
  rowFields : List String
  globalFields : List String
  elemFields : List String
  indexDict : List (String × Nat)
  rows : List (URow α)

/-- unfurl_array_annotations on one (array, index-dictionary) pair: error
when the array is not a row annotation or the dictionary is not a global
annotation; otherwise, for every dictionary key and element subfield one
flat expression named subfield_key reading the subfield of the array
element at the recorded index (an out-of-range or missing element reads
as missing, as does a missing subfield). -/
def unfurl_array_annotations {α : Type} (t : UnfurlTable α) (array arrayIndexDict : String) :
    Except String (List (String × (URow α → Option α))) :=
  if array ∉ t.rowFields then
    Except.error "Annotation not found in the Table rows."
  else if arrayIndexDict ∉ t.globalFields then
    Except.error "Annotation not found in the Table globals."
  else
    Except.ok (t.indexDict.flatMap (fun ki =>
      t.elemFields.map (fun f =>
        (f ++ "_" ++ ki.1,
         fun row => ((row.get? ki.2).join).bind (fun elem => (elem.lookup f).join)))))

/-- C6: with the array field among the row annotations and the index
dictionary among the globals, unfurl_array_annotations produces exactly
one flat expression per (dictionary key, element subfield) pair, named
subfield_key; each produced value reads the element subfield at the
recorded index, and a missing array element at that index makes every
synthesized field for that key missing on that row.  With the array
field or the dictionary name absent it raises an error instead. -/
theorem claim_C6_unfurl_array_annotations {α : Type} (t : UnfurlTable α)
    (array dictName : String) :
    (array ∉ t.rowFields →
      unfurl_array_annotations t array dictName =
        Except.error "Annotation not found in the Table rows.") ∧
    (array ∈ t.rowFields → dictName ∉ t.globalFields →
      unfurl_array_annotations t array dictName =
        Except.error "Annotation not found in the Table globals.") ∧
    (array ∈ t.rowFields → dictName ∈ t.globalFields →
      ∃ res : List (String × (URow α → Option α)),
        unfurl_array_annotations t array dictName = Except.ok res ∧
        res.length = t.indexDict.length * t.elemFields.length ∧
        (∀ k i, (k, i) ∈ t.indexDict → ∀ f ∈ t.elemFields,
          (f ++ "_" ++ k,
            fun row => ((row.get? i).join).bind (fun elem => (elem.lookup f).join))
            ∈ res) ∧
        (∀ e ∈ res, ∃ k i f, (k, i) ∈ t.indexDict ∧ f ∈ t.elemFields ∧
          e.1 = f ++ "_" ++ k ∧
          (∀ row : URow α,
            e.2 row = ((row.get? i).join).bind (fun elem => (elem.lookup f).join)) ∧
          (∀ row : URow α, (row.get? i).join = none → e.2 row = none))) := by
  refine ⟨?_, ?_, ?_⟩
  · intro ha
    unfold unfurl_array_annotations
    rw [if_pos ha]
  · intro ha hd
    unfold unfurl_array_annotations
    rw [if_neg (by simpa using ha), if_pos hd]
  · intro ha hd
    refine ⟨t.indexDict.flatMap (fun ki =>
      t.elemFields.map (fun f =>
        (f ++ "_" ++ ki.1,
         fun row => ((row.get? ki.2).join).bind (fun elem => (elem.lookup f).join)))),
      ?_, ?_, ?_, ?_⟩
    · unfold unfurl_array_annotations
      rw [if_neg (by simpa using ha), if_neg (by simpa using hd)]
    · induction t.indexDict with
      | nil => simp
      | cons ki rest ih =>
        simp only [List.flatMap_cons, List.length_append, List.length_map, ih,
          List.length_cons, Nat.succ_mul]
        omega
    · intro k i hki f hf
      apply List.mem_flatMap.mpr
      exact ⟨(k, i), hki, List.mem_map_of_mem _ hf⟩
    · intro e he
      obtain ⟨ki, hki, hmem⟩ := List.mem_flatMap.mp he
      obtain ⟨f, hf, hfe⟩ := List.mem_map.mp hmem
      refine ⟨ki.1, ki.2, f, hki, hf, ?_, ?_, ?_⟩
      · rw [← hfe]
      · intro row
        rw [← hfe]
      · intro row hrow
        rw [← hfe]
        show (((row.get? ki.2).join).bind fun elem => (elem.lookup f).join) = none
        rw [hrow]
        rfl

/-- Row 0 of the unfurl test fixture (array value of the freq field). -/
def c6Row0 : URow ℚ :=
  [some [("AC", some 5), ("AF", some 0.1), ("AN_eas", some 20), ("AN_sas", some 3)],
   some [("AC", some 10), ("AF", some 0.05), ("AN_eas", some 5), ("AN_sas", none)]]

/-- Row 3 of the unfurl test fixture: the raw (second) array element is
missing. -/
def c6Row3 : URow ℚ :=
  [some [("AC", some 8), ("AF", some 0.08), ("AN_eas", some 16), ("AN_sas", some 2)],
   none]

/-- The unfurl test fixture Table: freq rows, freq_index_dict global
mapping adj to 0 and raw to 1. -/
def c6Table : UnfurlTable ℚ :=
  { rowFields := ["idx", "freq"]
    globalFields := ["freq_index_dict"]
    elemFields := ["AC", "AF", "AN_eas", "AN_sas"]
    indexDict := [("adj", 0), ("raw", 1)]
    rows := [c6Row0, c6Row3] }

/-- C6 witness: on the fixture, unfurling produces the 8 fields of the
(2 keys x 4 subfields) product; the AC_raw expression reads 10 on row 0
and is missing on the row whose raw element is itself missing. -/
theorem claim_C6_unfurl_array_annotations_witness :
    ∃ res : List (String × (URow ℚ → Option ℚ)),
      unfurl_array_annotations c6Table "freq" "freq_index_dict" = Except.ok res ∧
      res.length = 8 ∧
      ("AC" ++ "_" ++ "raw",
        fun row => ((row.get? 1).join).bind (fun elem => (elem.lookup "AC").join)) ∈ res ∧
      (((c6Row0.get? 1).join).bind (fun elem => (elem.lookup "AC").join) = some 10) ∧
      (((c6Row3.get? 1).join).bind (fun elem => (elem.lookup "AC").join) = none) := by
  have h := (claim_C6_unfurl_array_annotations c6Table "freq" "freq_index_dict").2.2
    (by decide) (by decide)
  obtain ⟨res, hok, hlen, hmem, _⟩ := h
  refine ⟨res, hok, ?_, ?_, by rfl, by rfl⟩
  · rw [hlen]
    rfl
  · exact hmem "raw" 1 (by decide) "AC" (by decide)

/-- Python "sub in s" substring containment. -/
def strContainsSub (s sub : String) : Bool :=
  decide (sub.toList <:+: s.toList)

/-- Left-to-right non-overlapping replacement on character lists, fuelled
by the input length (Python str.replace with a non-empty pattern). -/
def pyReplaceAux : Nat → List Char → List Char → List Char → List Char
  | 0, s, _, _ => s
  | fuel + 1, s, pat, rep =>
    match s with
    | [] => []
    | c :: rest =>
      if pat.isPrefixOf (c :: rest) && !pat.isEmpty then
        rep ++ pyReplaceAux fuel ((c :: rest).drop pat.length) pat rep
      else
        c :: pyReplaceAux fuel rest pat rep

/-- Python str.replace(pat, rep). -/
def pyReplace (s pat rep : String) : String :=
  String.mk (pyReplaceAux s.length s.toList pat.toList rep.toList)

/-- One table row carrying a locus (contig and position) and an info
struct. -/
structure SexRow where
  contig : String
  pos : Nat
  info : InfoRow

/-- Outcome of check_sex_chr_metrics: for each XX-tagged metric the chrY
verdict (whether any chrY row has the metric defined — a failure — with
up to one example value), and the batched failure counts of the
X-nonpar nhomalt comparisons. -/
structure SexChrResult where
  yChecks : List (String × Bool × List Int)
  xnonparChecks : List (String × Nat)

/-- check_sex_chr_metrics: select the metrics whose name carries the
delimiter-XX tag; on chrY rows aggregate, per metric, whether any row
has the metric defined (reporting up to one defined value on failure);
then on the chrX rows outside the pseudo-autosomal region run the
batched loop comparing every XX-tagged nhomalt metric against its
sex-agnostic counterpart (the name with the XX tag removed). The
engine predicate locus.in_x_nonpar is a parameter. -/
def check_sex_chr_metrics (rows : List SexRow) (info_metrics contigs : List String)
    (delim : String) (inXNonpar : SexRow → Bool) : SexChrResult :=
  let xx_metrics := info_metrics.filter (fun m => strContainsSub m (delim ++ "XX"))
  let t_y := rows.filter (fun r => r.contig = "chrY")
  let yChecks :=
    if "chrY" ∈ contigs then
      xx_metrics.map (fun m =>
        let anyDef := t_y.any (fun r => (infoGet r.info m).isSome)
        (m, anyDef,
          if anyDef then (t_y.filterMap (fun r => infoGet r.info m)).take 1 else []))
    else []
  let t_x := rows.filter (fun r => r.contig = "chrX")
  let t_xnonpar := t_x.filter inXNonpar
  let nhomalt_xx := xx_metrics.filter (fun m => strContainsSub m "nhomalt")
  let entries := nhomalt_xx.map (fun m =>
    ({ desc := m ++ " == " ++ pyReplace m (delim ++ "XX") ""
       expr := fun r =>
         hailNe (infoGet r.info m) (infoGet r.info (pyReplace m (delim ++ "XX") ""))
       display := [m, pyReplace m (delim ++ "XX") ""] } : FieldCheck SexRow))
  { yChecks := yChecks
    xnonparChecks := generic_field_check_loop t_xnonpar entries }

/-- Hail inequality evaluates to true exactly on a pair of distinct
defined values. -/
theorem hailNe_true_iff (o1 o2 : Option Int) :
    (hailNe o1 o2 == some true) = true ↔ ∃ a b, o1 = some a ∧ o2 = some b ∧ a ≠ b := by
  cases o1 with
  | none => simp [hailNe, hailLift2]
  | some a =>
    cases o2 with
    | none => simp [hailNe, hailLift2]
    | some b =>
      simp only [hailNe, hailLift2, beq_iff_eq, Option.some.injEq]
      constructor
      · intro h
        have : a ≠ b := by simpa using h
        exact ⟨a, b, rfl, rfl, this⟩
      · rintro ⟨x, y, hx, hy, hne⟩
        subst hx
        subst hy
        simp [hne]

/-- C8: for every info metric whose name carries the delimiter-XX tag,
check_sex_chr_metrics reports its chrY check as failed exactly when the
metric is defined on at least one chrY row (listing up to one example
value found) and as passed when it is undefined on every chrY row; and
for every XX-tagged nhomalt metric the reported failure count of the
X-nonpar comparison is the count_where, over the non-pseudo-autosomal
chrX rows, of the XX-specific value differing from the sex-agnostic one
(both defined and distinct under Hail semantics). -/
theorem claim_C8_sex_chr_metrics (rows : List SexRow) (info_metrics contigs : List String)
    (delim : String) (inXNonpar : SexRow → Bool) (metric : String)
    (hm : metric ∈ info_metrics)
    (htag : strContainsSub metric (delim ++ "XX") = true) :
    ("chrY" ∈ contigs →
      (metric,
        (rows.filter (fun r => r.contig = "chrY")).any
          (fun r => (infoGet r.info metric).isSome),
        (if (rows.filter (fun r => r.contig = "chrY")).any
            (fun r => (infoGet r.info metric).isSome) then
          ((rows.filter (fun r => r.contig = "chrY")).filterMap
            (fun r => infoGet r.info metric)).take 1
        else []))
        ∈ (check_sex_chr_metrics rows info_metrics contigs delim inXNonpar).yChecks ∧
      ((rows.filter (fun r => r.contig = "chrY")).any
          (fun r => (infoGet r.info metric).isSome) = false ↔
        ∀ r ∈ rows, r.contig = "chrY" → infoGet r.info metric = none)) ∧
    (strContainsSub metric "nhomalt" = true →
      (metric ++ " == " ++ pyReplace metric (delim ++ "XX") "",
        countWhere (fun r =>
          hailNe (infoGet r.info metric)
            (infoGet r.info (pyReplace metric (delim ++ "XX") "")))
          ((rows.filter (fun r => r.contig = "chrX")).filter inXNonpar))
        ∈ (check_sex_chr_metrics rows info_metrics contigs delim inXNonpar).xnonparChecks) ∧
    (∀ o1 o2 : Option Int,
      (hailNe o1 o2 == some true) = true ↔ ∃ a b, o1 = some a ∧ o2 = some b ∧ a ≠ b) := by
  refine ⟨?_, ?_, hailNe_true_iff⟩
  · intro hy
    constructor
    · show _ ∈ (check_sex_chr_metrics rows info_metrics contigs delim inXNonpar).yChecks
      dsimp only [check_sex_chr_metrics]
      rw [if_pos hy]
      exact List.mem_map_of_mem _ (List.mem_filter.mpr ⟨hm, htag⟩)
    · rw [List.any_eq_false]
      constructor
      · intro h r hr hc
        have hnot := h r (List.mem_filter.mpr ⟨hr, by simpa using hc⟩)
        simpa using hnot
      · intro h r hr
        obtain ⟨hrr, hcc⟩ := List.mem_filter.mp hr
        have := h r hrr (by simpa using hcc)
        simp [this]
  · intro hnh
    show _ ∈ (check_sex_chr_metrics rows info_metrics contigs delim inXNonpar).xnonparChecks
    dsimp only [check_sex_chr_metrics]
    exact mem_generic_field_check_loop _ _ _
      (List.mem_map_of_mem _
        (List.mem_filter.mpr ⟨List.mem_filter.mpr ⟨hm, htag⟩, hnh⟩))

/-- The sex-chromosome test fixture rows. -/
def c8Rows : List SexRow :=
  [{ contig := "chrX", pos := 9000,
     info := [("nhomalt", some 3), ("nhomalt_XX", some 2), ("nhomalt_amr", some 5),
       ("nhomalt_amr_XX", some 1), ("AC", some 6), ("AC_XX", some 6)] },
   { contig := "chrX", pos := 1000000,
     info := [("nhomalt", some 5), ("nhomalt_XX", some 5), ("nhomalt_amr", some 5),
       ("nhomalt_amr_XX", some 5), ("AC", some 10), ("AC_XX", some 10)] },
   { contig := "chrY", pos := 1000000,
     info := [("nhomalt", some 5), ("nhomalt_XX", none), ("nhomalt_amr", none),
       ("nhomalt_amr_XX", none), ("AC_XX", none), ("AC", some 6)] },
   { contig := "chrY", pos := 2000000,
     info := [("nhomalt", some 5), ("nhomalt_XX", some 3), ("nhomalt_amr", none),
       ("nhomalt_amr_XX", none), ("AC_XX", none), ("AC", some 6)] }]

/-- The metric names of the sex-chromosome fixture. -/
def c8Metrics : List String :=
  ["nhomalt", "nhomalt_XX", "nhomalt_amr", "nhomalt_amr_XX", "AC", "AC_XX"]

/-- Stand-in for the engine predicate locus.in_x_nonpar on the fixture:
position 9000 lies before the first GRCh38 pseudo-autosomal region,
position 1000000 inside it. -/
def c8NonPar : SexRow → Bool := fun r => r.pos ≤ 10000

/-- C8 witness: on the fixture, nhomalt_XX fails the chrY check with
example value 3 and the X-nonpar comparison nhomalt_XX == nhomalt
counts exactly one differing row. -/
theorem claim_C8_sex_chr_metrics_witness :
    ("nhomalt_XX", true, [(3 : Int)])
      ∈ (check_sex_chr_metrics c8Rows c8Metrics ["chrX", "chrY"] "_" c8NonPar).yChecks ∧
    ("nhomalt_XX == nhomalt", 1)
      ∈ (check_sex_chr_metrics c8Rows c8Metrics ["chrX", "chrY"] "_"
          c8NonPar).xnonparChecks := by
  have h := claim_C8_sex_chr_metrics c8Rows c8Metrics ["chrX", "chrY"] "_" c8NonPar
    "nhomalt_XX" (by decide) (by decide)
  obtain ⟨h1, h2, _⟩ := h
  obtain ⟨hmem, _⟩ := h1 (by decide)
  constructor
  · have hev : (("nhomalt_XX" : String),
        (c8Rows.filter (fun r => r.contig = "chrY")).any
          (fun r => (infoGet r.info "nhomalt_XX").isSome),
        (if (c8Rows.filter (fun r => r.contig = "chrY")).any
            (fun r => (infoGet r.info "nhomalt_XX").isSome) then
          ((c8Rows.filter (fun r => r.contig = "chrY")).filterMap
            (fun r => infoGet r.info "nhomalt_XX")).take 1
        else [])) = ("nhomalt_XX", true, [(3 : Int)]) := by decide
    exact hev ▸ hmem
  · have hx := h2 (by decide)
    have hev2 : (("nhomalt_XX" : String) ++ " == " ++ pyReplace "nhomalt_XX" ("_" ++ "XX") "",
        countWhere (fun r =>
          hailNe (infoGet r.info "nhomalt_XX")
            (infoGet r.info (pyReplace "nhomalt_XX" ("_" ++ "XX") "")))
          ((c8Rows.filter (fun r => r.contig = "chrX")).filter c8NonPar)) =
        ("nhomalt_XX == nhomalt", 1) := by decide
    exact hev2 ▸ hx
